import Mathlib

/-!
Verification development for the sochen repository: the VS Code extension
(`vscode-extension/extension.js`, with its manifest `package.json`) and the
agent-workflow backend described by the project documentation.

Part 1 embeds the extension code: JSON-like values, the VS Code configuration
lookup, `checkConnection`, the `ai-agent-system.startTask` command handler,
`startWebSocket`'s socket handlers and `deactivate`.

Part 2 models the backend workflow coordinator, routing policy, registry and
transport server. That code is not part of the repository snapshot (only its
documentation and a test client are), so those definitions are modelled from
the specification and are marked as such.
-/

/-- A JSON-like value, as manipulated by the extension's JavaScript. -/
inductive JValue where
  | jstr (s : String)
  | jnum (n : Int)
  | jbool (b : Bool)
  | jobj (fields : List (String × JValue))
  | jnull

/-- JavaScript property access `v.f` on an object, `none` when absent or when
`v` is not an object (in JS the access then yields `undefined` or throws). -/
def JValue.getField (v : JValue) (f : String) : Option JValue :=
  match v with
  | .jobj fields => fields.lookup f
  | _ => none

/-- JavaScript truthiness of a value. -/
def jsTruthy : JValue → Bool
  | .jstr s => s ≠ ""
  | .jnum n => n ≠ 0
  | .jbool b => b
  | .jobj _ => true
  | .jnull => false

/-- JavaScript `a || b` applied to a possibly-undefined value `a`. -/
def jsOr (a : Option JValue) (b : JValue) : JValue :=
  match a with
  | some v => if jsTruthy v then v else b
  | none => b

/-- JavaScript string coercion as used in the extension's template literals. -/
def jsToString : JValue → String
  | .jstr s => s
  | .jnum n => toString n
  | .jbool b => if b then "true" else "false"
  | .jobj _ => "[object Object]"
  | .jnull => "null"

/-- The configuration defaults declared by the extension manifest
(`vscode-extension/package.json`, `contributes.configuration.properties`):
only `agentSystem.serverUrl`, defaulting to `ws://localhost:8765`. -/
def manifestDefaults : List (String × JValue) :=
  [("agentSystem.serverUrl", .jstr "ws://localhost:8765")]

/-- A user configuration: full dotted key to the user-set value, if any. -/
def UserConfig : Type := String → Option JValue

/-- The empty configuration: the user has set no values. -/
def emptyUserConfig : UserConfig := fun _ => none

/-- A user configuration with one key overridden to a given value. -/
def overrideConfig (u : UserConfig) (k : String) (v : JValue) : UserConfig :=
  fun k' => if k' = k then some v else u k'

/-- `vscode.workspace.getConfiguration(section).get(key)`: the user-set value
for `section.key`, falling back to the manifest-declared default. -/
def configGet (u : UserConfig) (sect key : String) : Option JValue :=
  match u (sect ++ "." ++ key) with
  | some v => some v
  | none => manifestDefaults.lookup (sect ++ "." ++ key)

/-- Embeds `getServerUrl` (extension.js lines 16-19):
`vscode.workspace.getConfiguration('sochen').get('serverUrl') || 'http://localhost:3000'`. -/
def getServerUrl (u : UserConfig) : String :=
  jsToString (jsOr (configGet u "sochen" "serverUrl") (.jstr "http://localhost:3000"))

/-- Embeds the host computation of `startWebSocket` (extension.js line 307). -/
def websocketHost (u : UserConfig) : JValue :=
  jsOr (configGet u "ai-agent-system" "websocketHost") (.jstr "localhost")

/-- Embeds the port computation of `startWebSocket` (extension.js line 308). -/
def websocketPort (u : UserConfig) : JValue :=
  jsOr (configGet u "ai-agent-system" "websocketPort") (.jnum 8765)

/-- Embeds the URL template literal of `startWebSocket` (extension.js line 309):
`ws://${websocketHost}:${websocketPort}`. -/
def websocketUrl (u : UserConfig) : String :=
  "ws://" ++ jsToString (websocketHost u) ++ ":" ++ jsToString (websocketPort u)

/-- Outcome of the `axios.get` call in `checkConnection`: a response carrying a
body, or a thrown error (network failure, non-2xx status, etc.). -/
inductive RequestOutcome where
  | success (data : JValue)
  | failure (msg : String)

/-- Embeds `checkConnection` (extension.js lines 22-30): on a response, return
`response.data.status === 'operational'`; any thrown error is caught and the
function returns `false`. -/
def checkConnection (o : RequestOutcome) : Bool :=
  match o with
  | .success data =>
      match data.getField "status" with
      | some (.jstr s) => s == "operational"
      | _ => false
  | .failure _ => false

/-- The message `startWebSocket`'s `onopen` handler sends (extension.js
line 315): `JSON.stringify({ task: taskDescription })`. -/
def taskMessage (task : String) : JValue :=
  .jobj [("task", .jstr task)]

/-- The workflow-start message sent by the documentation's WebSocket test
client (`test_client`, guide lines 400-410). -/
def testClientStartMessage : JValue :=
  .jobj [("type", .jstr "run_workflow"),
         ("task", .jstr "Write a Python function to calculate factorial"),
         ("workflow_id", .jstr "test_workflow")]

/-- Observable effect of the `ai-agent-system.startTask` command handler. -/
inductive StartTaskEffect where
  | noAction
  | started (task : String)
deriving Repr, DecidableEq

/-- Embeds the `ai-agent-system.startTask` command handler (extension.js
lines 291-300): `showInputBox` yields a string or `undefined`; only a truthy
(non-empty) task description reaches `startWebSocket(taskDescription)`. -/
def startTask (input : Option String) : StartTaskEffect :=
  match input with
  | none => .noAction
  | some t => if t = "" then .noAction else .started t

/-- An operation performed on the WebSocket object. -/
inductive SocketOp where
  | send (msg : JValue)
  | close

/-- An event delivered to the WebSocket's handlers. -/
inductive SocketEvent where
  | opened
  | message (data : String)
  | closed
  | errored (e : String)
deriving Repr, DecidableEq

/-- Embeds the handlers installed by `startWebSocket` (extension.js
lines 313-331): the socket operations each event's handler performs. The task
message is sent inside `onopen`; the other handlers only log or show UI
notifications. -/
def startWebSocketHandlers (task : String) : SocketEvent → List SocketOp
  | .opened => [.send (taskMessage task)]
  | .message _ => []
  | .closed => []
  | .errored _ => []

/-- Embeds `deactivate` (extension.js lines 334-339): `if (socket)
{ socket.close(); }` — the module-level `socket` is `undefined` until
`startWebSocket` first assigns it. -/
def deactivate (socket : Option String) : List SocketOp :=
  match socket with
  | some _ => [.close]
  | none => []

/-! ## Part 2: the backend workflow coordinator, modelled from the spec

The Python backend (`agent_system/graph.py`, `server.py`, `state.py`,
orchestrator routing) is not part of this snapshot; only the project
documentation and a WebSocket test client describe it. The definitions below
are modelled from the specification's data model (§3), Routing Policy (§4.2),
Workflow Coordinator loop (§4.3), Registry (§4.4) and Transport Server
(§4.5/§6). -/

/-- Workflow status, spec §3: `PENDING, RUNNING, COMPLETED, FAILED, CANCELLED`. -/
inductive Status where
  | PENDING
  | RUNNING
  | COMPLETED
  | FAILED
  | CANCELLED
deriving Repr, DecidableEq

/-- The terminal statuses: `COMPLETED`, `FAILED`, `CANCELLED`. -/
def Status.isTerminal : Status → Bool
  | .COMPLETED => true
  | .FAILED => true
  | .CANCELLED => true
  | _ => false

/-- One entry of `workflow_history`, spec §3: one per agent invocation. -/
structure HistoryEntry where
  agent_id : String
  entered_at : Nat
  exited_at : Nat
  resulting_status : String
deriving Repr, DecidableEq

/-- One entry of `messages`, spec §3. -/
structure AgentMessage where
  agent : String
  content : String
  timestamp : Nat
deriving Repr, DecidableEq

/-- One value of the `files` mapping, spec §3. -/
structure FileEntry where
  content : String
  metadata : String
deriving Repr, DecidableEq

/-- Modelled from the spec: `WorkflowState` (§3, `state.py` is not under
`src/`). `cancel_requested` records an external cancellation request, observed
cooperatively at the next routing-decision boundary (§4.3, §5). -/
structure WorkflowState where
  task : String
  status : Status
  files : List (String × FileEntry)
  messages : List AgentMessage
  workflow_history : List HistoryEntry
  code_issues : List String
  review_notes : List String
  security_findings : List String
  active_agent : String
  error : Option String
  cancel_requested : Bool
deriving Repr, DecidableEq

/-- The configured iteration budget, spec §4.2: a maximum total
agent-invocation count and a maximum repeat-invocation count per agent. -/
structure IterationBudget where
  maxTotal : Nat
  maxRepeat : Nat
deriving Repr, DecidableEq

/-- A routing verdict, spec §4.2: the next agent to run, or termination. -/
inductive Verdict where
  | nextAgent (id : String)
  | terminate (st : Status) (error : Option String)
deriving Repr, DecidableEq

/-- Number of invocations of agent `a` recorded in the history. -/
def repeatCount (h : List HistoryEntry) (a : String) : Nat :=
  (h.filter (fun e => e.agent_id = a)).length

/-- Modelled from the spec: the iteration-budget check (§4.2) — the total
invocation count is derived from `workflow_history` length, and the repeat
count of any single agent is bounded. -/
def budgetExceeded (b : IterationBudget) (h : List HistoryEntry) : Bool :=
  h.length > b.maxTotal || h.any (fun e => repeatCount h e.agent_id > b.maxRepeat)

/-- Modelled from the spec: the Routing Policy `next(state)` (§4.2; the
orchestrator/`graph.py` routing is not under `src/`). The budget is checked
first; otherwise the allow-list table applies: Architect → Coder; Coder →
Reviewer; Reviewer → Coder on blocking issues, else terminate `COMPLETED`
(scenario A's two-agent happy path); Documentation → terminate `COMPLETED`. -/
def routingNext (b : IterationBudget) (s : WorkflowState) : Verdict :=
  if budgetExceeded b s.workflow_history then
    .terminate .FAILED (some "iteration_limit_exceeded")
  else if s.active_agent = "Architect" then .nextAgent "Coder"
  else if s.active_agent = "Coder" then .nextAgent "Reviewer"
  else if s.active_agent = "Reviewer" then
    if s.code_issues = [] then .terminate .COMPLETED none else .nextAgent "Coder"
  else if s.active_agent = "Documentation" then .terminate .COMPLETED none
  else .terminate .FAILED (some "unknown_agent")

/-- Result of one agent invocation, spec §4.3/§7: a new state, or a fatal
agent error (the bounded retry of recoverable errors is resolved inside the
invocation and is not modelled separately). -/
inductive AgentResult where
  | ok (s : WorkflowState)
  | fatal (msg : String)

/-- An agent roster: `run(state) -> state'` per agent id, spec §2. -/
def AgentRoster : Type := String → WorkflowState → AgentResult

/-- Record a terminal error description: `error` is set exactly once and is
immutable thereafter (spec §3). -/
def setErrorOnce (e err : Option String) : Option String :=
  if e.isSome then e else err

/-- One item of the coordinator's externally observable per-step trace. -/
inductive TraceItem where
  | agentStep (agent : String)
  | progressEvent (agent : String) (st : Status)
  | routingDecision (v : Verdict)
deriving Repr, DecidableEq

/-- The history entry recorded for one invocation of the active agent of `s`,
spec §3: `entered_at`/`exited_at` are logical ticks derived from the history
length. -/
def histEntry (s : WorkflowState) (rs : String) : HistoryEntry :=
  ⟨s.active_agent, s.workflow_history.length, s.workflow_history.length + 1, rs⟩

/-- The committed state after a successful invocation of the active agent of
`s` returned `s1`: the coordinator owns `task` and `status` (agents cannot
overwrite them), appends the history entry, and keeps the pending
cancellation flag. -/
def afterAgent (s s1 : WorkflowState) : WorkflowState :=
  { s1 with
      task := s.task
      status := .RUNNING
      workflow_history := s1.workflow_history ++ [histEntry s "RUNNING"]
      cancel_requested := s.cancel_requested }

/-- Apply a routing verdict to the committed post-agent state `s2`, producing
the new state and the step's trace: the agent step, exactly one progress
event, then the routing decision. -/
def applyVerdict (s2 : WorkflowState) (a : String) (v : Verdict) :
    WorkflowState × List TraceItem :=
  match v with
  | .nextAgent a2 =>
      ({ s2 with active_agent := a2 },
       [.agentStep a, .progressEvent a .RUNNING, .routingDecision (.nextAgent a2)])
  | .terminate st err =>
      ({ s2 with
          status := st
          error := setErrorOnce s2.error err
          active_agent := "" },
       [.agentStep a, .progressEvent a .RUNNING, .routingDecision (.terminate st err)])

/-- The resulting state and trace when the active agent of `s` fails fatally:
the coordinator records the failed invocation, sets `status := FAILED` and the
error, and emits exactly one progress event before the terminal decision
(spec §4.3, §7). -/
def afterFatal (s : WorkflowState) (msg : String) : WorkflowState × List TraceItem :=
  ({ s with
      status := .FAILED
      workflow_history := s.workflow_history ++ [histEntry s "FAILED"]
      error := setErrorOnce s.error (some msg)
      active_agent := "" },
   [.agentStep s.active_agent, .progressEvent s.active_agent .FAILED,
    .routingDecision (.terminate .FAILED (some msg))])

/-- Modelled from the spec: one iteration of the Workflow Coordinator loop
(§4.3; the coordinator code is not under `src/`), returning the new state and
the observable trace of the step. A terminal state is left unchanged (no
outgoing transitions); a `PENDING` state is dispatched to `RUNNING`; a
cancellation request is honoured at the routing boundary; otherwise the active
agent runs, a history entry is appended, exactly one progress event is
emitted, and the routing verdict is applied. -/
def coordinatorStepTrace (b : IterationBudget) (agents : AgentRoster)
    (s : WorkflowState) : WorkflowState × List TraceItem :=
  if s.status.isTerminal then (s, [])
  else if s.status = .PENDING then ({ s with status := .RUNNING }, [])
  else if s.cancel_requested then
    ({ s with status := .CANCELLED, active_agent := "" },
     [.routingDecision (.terminate .CANCELLED none)])
  else
    match agents s.active_agent s with
    | .ok s1 =>
        applyVerdict (afterAgent s s1) s.active_agent (routingNext b (afterAgent s s1))
    | .fatal msg => afterFatal s msg

/-- The state after one coordinator step. -/
def coordinatorStep (b : IterationBudget) (agents : AgentRoster)
    (s : WorkflowState) : WorkflowState :=
  (coordinatorStepTrace b agents s).1

/-- Modelled from the spec: `cancel(workflowId)` (§4.3) — a cooperative
request, recorded on the state and honoured at the next routing boundary; a
terminal workflow is a read-only snapshot and is left unchanged. -/
def requestCancel (s : WorkflowState) : WorkflowState :=
  if s.status.isTerminal then s else { s with cancel_requested := true }

/-- Run the coordinator loop for at most `fuel` steps (terminal states are
absorbing, so any sufficiently large fuel yields the final state). -/
def runLoop (b : IterationBudget) (agents : AgentRoster) :
    Nat → WorkflowState → WorkflowState
  | 0, s => s
  | n + 1, s =>
      if s.status.isTerminal then s
      else runLoop b agents n (coordinatorStep b agents s)

/-- The allowed status transitions of the claim: `PENDING → RUNNING →
{COMPLETED, FAILED, CANCELLED}`, plus staying in place. -/
def statusStep (a b : Status) : Bool :=
  a = b ||
  (a = .PENDING && b = .RUNNING) ||
  (a = .RUNNING && (b = .COMPLETED || b = .FAILED || b = .CANCELLED))

/-- An outbound protocol event, spec §6. -/
inductive OutMsg where
  | statusMsg (workflow_id : String) (st : Status) (active_agent : String)
  | workflowResults (workflow_id : String) (serialized : String)
  | errorMsg (message : String)
deriving Repr, DecidableEq

/-- An inbound control message, spec §6/§4.5, with the `run_workflow` type used
by the documentation's test client. -/
inductive InMsg where
  | runWorkflow (task : String) (workflow_id : Option String)
  | cancelWorkflow (workflow_id : String)
  | getResults (workflow_id : String)
  | malformed (raw : String)
deriving Repr, DecidableEq

/-- Serialization of a status to its protocol string. -/
def serializeStatus : Status → String
  | .PENDING => "PENDING"
  | .RUNNING => "RUNNING"
  | .COMPLETED => "COMPLETED"
  | .FAILED => "FAILED"
  | .CANCELLED => "CANCELLED"

/-- Serialization of one file entry. -/
def serializeFile (f : String × FileEntry) : String :=
  f.1 ++ ":" ++ f.2.content ++ ";" ++ f.2.metadata

/-- Serialization of one message entry. -/
def serializeMessage (m : AgentMessage) : String :=
  m.agent ++ "@" ++ toString m.timestamp ++ ":" ++ m.content

/-- Serialization of one history entry. -/
def serializeHistory (e : HistoryEntry) : String :=
  e.agent_id ++ "[" ++ toString e.entered_at ++ "," ++ toString e.exited_at
    ++ "]=" ++ e.resulting_status

/-- Modelled from the spec: the byte-level snapshot the server sends for a
workflow state (the serializer of `server.py` is not under `src/`). -/
def serializeState (s : WorkflowState) : String :=
  "\x7btask:" ++ s.task
    ++ ",status:" ++ serializeStatus s.status
    ++ ",files:[" ++ String.intercalate "," (s.files.map serializeFile)
    ++ "],messages:[" ++ String.intercalate "," (s.messages.map serializeMessage)
    ++ "],history:[" ++ String.intercalate "," (s.workflow_history.map serializeHistory)
    ++ "],issues:[" ++ String.intercalate "," s.code_issues
    ++ "],active:" ++ s.active_agent
    ++ ",error:" ++ (match s.error with | some e => e | none => "null")
    ++ "\x7d"

/-- A process-unique fresh workflow id derived from the server's counter. -/
def freshId (n : Nat) : String := "wf-" ++ toString n

/-- The initial `WorkflowState` constructed for a task, spec §4.3:
`status=PENDING`, empty collections, the first agent of the roster active. -/
def initialWorkflowState (task : String) : WorkflowState :=
  { task := task
    status := .PENDING
    files := []
    messages := []
    workflow_history := []
    code_issues := []
    review_notes := []
    security_findings := []
    active_agent := "Coder"
    error := none
    cancel_requested := false }

/-- Modelled from the spec: the Transport Server's per-connection state — the
Registry's id → snapshot map (§4.4), the fresh-id counter, and whether the
connection is open. -/
structure ServerState where
  registry : String → Option WorkflowState
  nextId : Nat
  connOpen : Bool

/-- Modelled from the spec: the Transport Server's inbound dispatch (§4.5/§6;
`server.py` is not under `src/`). A workflow start with a non-empty task
registers a dispatched (`RUNNING`) state and replies with a `status` event; an
empty task is rejected before any workflow is created; a cancel request is
recorded cooperatively; `get_workflow_results` replies with the latest
serialized snapshot, or an `error {message: "unknown workflow"}` event for an
unknown id; a malformed message yields an `error` event. No branch closes the
connection. -/
def handleMessage (srv : ServerState) (m : InMsg) : ServerState × List OutMsg :=
  match m with
  | .runWorkflow task widOpt =>
      if task = "" then (srv, [.errorMsg "empty task"])
      else
        let wid := widOpt.getD (freshId srv.nextId)
        let st := { initialWorkflowState task with status := .RUNNING }
        ({ srv with
            registry := fun k => if k = wid then some st else srv.registry k
            nextId := srv.nextId + 1 },
         [.statusMsg wid .RUNNING st.active_agent])
  | .cancelWorkflow wid =>
      match srv.registry wid with
      | some st =>
          ({ srv with
              registry := fun k =>
                if k = wid then some (requestCancel st) else srv.registry k },
           [.statusMsg wid .CANCELLED st.active_agent])
      | none => (srv, [.errorMsg "unknown workflow"])
  | .getResults wid =>
      match srv.registry wid with
      | some st => (srv, [.workflowResults wid (serializeState st)])
      | none => (srv, [.errorMsg "unknown workflow"])
  | .malformed _ => (srv, [.errorMsg "malformed message"])

/-- Process a sequence of inbound messages on one connection, for as long as
the connection is open, concatenating the outbound events. -/
def processMessages (srv : ServerState) : List InMsg → ServerState × List OutMsg
  | [] => (srv, [])
  | m :: rest =>
      if srv.connOpen then
        let p1 := handleMessage srv m
        let p2 := processMessages p1.1 rest
        (p2.1, p1.2 ++ p2.2)
      else (srv, [])

/-- One coordinator step applied, through the Registry, to the workflow with
the given id (other records are untouched), spec §4.4. -/
def stepWorkflow (b : IterationBudget) (agents : AgentRoster)
    (srv : ServerState) (wid : String) : ServerState :=
  { srv with
      registry := fun k =>
        if k = wid then (srv.registry k).map (coordinatorStep b agents)
        else srv.registry k }

/-- A subscriber that joined after `k` events were already produced observes
the produced event sequence from that point on. -/
def observeFrom (produced : List OutMsg) (k : Nat) : List OutMsg :=
  produced.drop k

/-- Scenario agents (spec §8, scenarios A/B): the Coder writes the file and a
message; the Reviewer reports one blocking issue every time it runs. -/
def scenarioB_agents : AgentRoster := fun a s =>
  if a = "Coder" then
    .ok { s with
            files := [("parse_int.py", ⟨"def parse_int(x): ...", "generated"⟩)]
            messages := s.messages ++ [⟨"Coder", "implemented parse_int", s.messages.length⟩] }
  else if a = "Reviewer" then
    .ok { s with
            code_issues := ["missing input validation"]
            messages := s.messages ++ [⟨"Reviewer", "blocking issue found", s.messages.length⟩] }
  else .ok s

/-- Scenario B's iteration budget: 2 repeats per agent in the Coder→Reviewer
loop, with a generous total bound. -/
def scenarioB_budget : IterationBudget := ⟨100, 2⟩

/-- Scenario B's final state: the loop run to quiescence from the initial
state for the scenario task. -/
def scenarioB_final : WorkflowState :=
  runLoop scenarioB_budget scenarioB_agents 20
    (initialWorkflowState "add input validation to parse_int")

/-! ## Helper lemmas -/

/-- A terminal state is absorbing for the coordinator: no outgoing step. -/
theorem coordinatorStep_terminal (b : IterationBudget) (agents : AgentRoster)
    (s : WorkflowState) (h : s.status.isTerminal = true) :
    coordinatorStep b agents s = s := by
  unfold coordinatorStep coordinatorStepTrace
  simp [h]

/-- A routing verdict that terminates always carries a terminal status. -/
theorem routingNext_terminate_terminal (b : IterationBudget) (s : WorkflowState)
    (st : Status) (err : Option String) (h : routingNext b s = .terminate st err) :
    st.isTerminal = true := by
  unfold routingNext at h
  split_ifs at h <;> cases h <;> rfl

/-- Any status other than `PENDING` and the terminal ones is `RUNNING`. -/
theorem status_running_of_not_terminal_pending (st : Status)
    (ht : st.isTerminal = false) (hp : st ≠ .PENDING) : st = .RUNNING := by
  cases st <;> simp_all [Status.isTerminal]

/-- `statusStep` is reflexive. -/
theorem statusStep_refl (st : Status) : statusStep st st = true := by
  simp [statusStep]

/-- The status after applying a routing verdict is either unchanged or
terminal. -/
theorem applyVerdict_status (s2 : WorkflowState) (a : String) (b : IterationBudget) :
    (applyVerdict s2 a (routingNext b s2)).1.status = s2.status ∨
    ((applyVerdict s2 a (routingNext b s2)).1.status).isTerminal = true := by
  cases hv : routingNext b s2 with
  | nextAgent a2 => left; rfl
  | terminate st err =>
    right
    simpa [applyVerdict] using routingNext_terminate_terminal _ _ _ _ hv

/-! ## Claim theorems -/

/-- C1: whenever the iteration budget is exceeded — the `workflow_history`
length is over the configured maximum total, or some agent's repeat count is
over its maximum — the Routing Policy returns the terminal verdict `FAILED`
with error `"iteration_limit_exceeded"`; and in Scenario B (a Coder→Reviewer
loop whose Reviewer reports a blocking issue twice in a row, repeat budget 2),
the final status is `FAILED` with that error. -/
theorem iteration_budget_forces_failed (b : IterationBudget) (s : WorkflowState)
    (h : budgetExceeded b s.workflow_history = true) :
    routingNext b s = .terminate .FAILED (some "iteration_limit_exceeded") ∧
    scenarioB_final.status = .FAILED ∧
    scenarioB_final.error = some "iteration_limit_exceeded" := by
  refine ⟨?_, by decide, by decide⟩
  unfold routingNext
  rw [if_pos h]

/-- Witness for C1: a budget of zero total invocations is exceeded by a
one-entry history, and routing then fails with `iteration_limit_exceeded`. -/
theorem iteration_budget_forces_failed_witness :
    budgetExceeded ⟨0, 2⟩
      ({ initialWorkflowState "t" with
          workflow_history := [⟨"Coder", 0, 1, "RUNNING"⟩] } : WorkflowState).workflow_history
      = true ∧
    routingNext ⟨0, 2⟩
      { initialWorkflowState "t" with workflow_history := [⟨"Coder", 0, 1, "RUNNING"⟩] } =
      .terminate .FAILED (some "iteration_limit_exceeded") :=
  ⟨by decide,
   (iteration_budget_forces_failed ⟨0, 2⟩
      { initialWorkflowState "t" with workflow_history := [⟨"Coder", 0, 1, "RUNNING"⟩] }
      (by decide)).1⟩

/-- C2: the coordinator's status transitions follow `PENDING → RUNNING →
{COMPLETED, FAILED, CANCELLED}` only, for both state-changing operations
(a coordinator step and a cancellation request), and a terminal state is
left completely unchanged by both — terminal states have no outgoing
transitions. -/
theorem status_transitions_monotone (b : IterationBudget) (agents : AgentRoster)
    (s : WorkflowState) :
    statusStep s.status (coordinatorStep b agents s).status = true ∧
    statusStep s.status (requestCancel s).status = true ∧
    (s.status.isTerminal = true →
      coordinatorStep b agents s = s ∧ requestCancel s = s) := by
  refine ⟨?_, ?_, ?_⟩
  · unfold coordinatorStep coordinatorStepTrace
    split
    · exact statusStep_refl _
    · next ht =>
      split
      · next hp => rw [hp]; simp [statusStep]
      · next hp =>
        have hr : s.status = .RUNNING :=
          status_running_of_not_terminal_pending _ (by simpa using ht) hp
        rw [hr]
        split
        · simp [statusStep]
        · cases hag : agents s.active_agent s with
          | ok s1 =>
            rcases applyVerdict_status (afterAgent s s1) s.active_agent b with h | h
            · rw [h]; simp [afterAgent, statusStep]
            · revert h
              cases hres : (applyVerdict (afterAgent s s1) s.active_agent
                  (routingNext b (afterAgent s s1))).1.status <;>
                simp [statusStep, Status.isTerminal]
          | fatal msg =>
            simp [afterFatal, statusStep]
  · unfold requestCancel
    split
    · exact statusStep_refl _
    · exact statusStep_refl _
  · intro ht
    refine ⟨coordinatorStep_terminal b agents s ht, ?_⟩
    unfold requestCancel
    simp [ht]

/-- Witness for C2 at a concrete completed workflow: the terminal state is
untouched by a coordinator step and by a cancellation request. -/
theorem status_transitions_monotone_witness :
    (({ initialWorkflowState "t" with status := Status.COMPLETED } : WorkflowState).status).isTerminal = true ∧
    (coordinatorStep ⟨10, 2⟩ (fun _ s => .ok s)
        { initialWorkflowState "t" with status := Status.COMPLETED } =
      { initialWorkflowState "t" with status := Status.COMPLETED } ∧
     requestCancel { initialWorkflowState "t" with status := Status.COMPLETED } =
      { initialWorkflowState "t" with status := Status.COMPLETED }) :=
  ⟨rfl,
   (status_transitions_monotone ⟨10, 2⟩ (fun _ s => .ok s)
      { initialWorkflowState "t" with status := Status.COMPLETED }).2.2 rfl⟩

/-- Counterexample to C3: the workflow-start messages actually sent by the
clients in the repository are not of the `start_workflow` shape — the test
client's message has type `run_workflow`, and the extension's message has no
type field at all. -/
theorem start_message_not_start_workflow :
    testClientStartMessage.getField "type" ≠ some (.jstr "start_workflow") ∧
    (taskMessage "add input validation to parse_int").getField "type" = none := by
  constructor
  · simp [testClientStartMessage, JValue.getField, List.lookup]
  · rfl

/-- C3 (amended): every workflow-start message carries the task string, but
its shape is not `start_workflow`: the extension sends a bare `{task}` object
(no type field), and the documentation's test client sends
`{type: "run_workflow", task, workflow_id}`; the server (modelled from the
spec) replies to a workflow start with a `status` message carrying the
assigned/echoed id and status `RUNNING`. -/
theorem workflow_start_message_shape (t : String) (h : t ≠ "") :
    (taskMessage t).getField "task" = some (.jstr t) ∧
    (taskMessage t).getField "type" = none ∧
    testClientStartMessage.getField "type" = some (.jstr "run_workflow") ∧
    testClientStartMessage.getField "task" =
      some (.jstr "Write a Python function to calculate factorial") ∧
    testClientStartMessage.getField "workflow_id" = some (.jstr "test_workflow") ∧
    ∀ (srv : ServerState) (wid : Option String),
      (handleMessage srv (.runWorkflow t wid)).2 =
        [.statusMsg (wid.getD (freshId srv.nextId)) .RUNNING "Coder"] := by
  refine ⟨?_, rfl, rfl, rfl, rfl, ?_⟩
  · simp [taskMessage, JValue.getField, List.lookup]
  · intro srv wid
    simp [handleMessage, h, initialWorkflowState]

/-- Witness for the amended C3 at the test client's concrete task string. -/
theorem workflow_start_message_shape_witness :
    (taskMessage "Write a Python function to calculate factorial").getField "task" =
      some (.jstr "Write a Python function to calculate factorial") ∧
    (taskMessage "Write a Python function to calculate factorial").getField "type" = none ∧
    testClientStartMessage.getField "type" = some (.jstr "run_workflow") ∧
    testClientStartMessage.getField "task" =
      some (.jstr "Write a Python function to calculate factorial") ∧
    testClientStartMessage.getField "workflow_id" = some (.jstr "test_workflow") ∧
    ∀ (srv : ServerState) (wid : Option String),
      (handleMessage srv
        (.runWorkflow "Write a Python function to calculate factorial" wid)).2 =
        [.statusMsg (wid.getD (freshId srv.nextId)) .RUNNING "Coder"] :=
  workflow_start_message_shape "Write a Python function to calculate factorial"
    (by decide)

/-- C4: starting a workflow validates that the task is non-empty — a missing
or empty task description produces no action (no workflow-start message is
sent, and the server rejects an empty task before creating any workflow
state), while any non-empty task starts the WebSocket workflow. -/
theorem startTask_validates (input : Option String) :
    (startTask input = .noAction ↔ input = none ∨ input = some "") ∧
    (∀ t, input = some t → t ≠ "" → startTask input = .started t) ∧
    (∀ (srv : ServerState) (wid : Option String),
      handleMessage srv (.runWorkflow "" wid) = (srv, [.errorMsg "empty task"])) := by
  refine ⟨?_, ?_, ?_⟩
  · cases input with
    | none => simp [startTask]
    | some t => by_cases h : t = "" <;> simp [startTask, h]
  · intro t hin hne
    subst hin
    simp [startTask, hne]
  · intro srv wid
    rfl

/-- Witness for C4: a concrete non-empty task starts the workflow. -/
theorem startTask_validates_witness :
    startTask (some "fix parse_int") = .started "fix parse_int" :=
  (startTask_validates (some "fix parse_int")).2.1 "fix parse_int" rfl (by decide)

/-- C5: reading the results of a terminal workflow is idempotent — the reply
carries the serialized snapshot, the handler leaves the server state
untouched, and even if the coordinator is stepped on any workflow between two
calls, the terminal workflow's snapshot is byte-identical. -/
theorem getResults_idempotent (srv : ServerState) (wid : String) (st : WorkflowState)
    (hfind : srv.registry wid = some st) (hterm : st.status.isTerminal = true) :
    handleMessage srv (.getResults wid) =
      (srv, [.workflowResults wid (serializeState st)]) ∧
    ∀ (b : IterationBudget) (agents : AgentRoster) (wid2 : String),
      (handleMessage (stepWorkflow b agents srv wid2) (.getResults wid)).2 =
        [.workflowResults wid (serializeState st)] := by
  constructor
  · simp [handleMessage, hfind]
  · intro b agents wid2
    by_cases h : wid = wid2
    · subst h
      simp [handleMessage, stepWorkflow, hfind,
        coordinatorStep_terminal b agents st hterm]
    · simp [handleMessage, stepWorkflow, h, hfind]

/-- A completed workflow state, used by concrete witnesses. -/
def doneState : WorkflowState :=
  { initialWorkflowState "t" with status := .COMPLETED }

/-- A server holding one completed workflow `wf-0`, used by concrete
witnesses. -/
def witnessServer : ServerState :=
  { registry := fun k => if k = "wf-0" then some doneState else none
    nextId := 1
    connOpen := true }

/-- Witness for C5 at a concrete server with one completed workflow. -/
theorem getResults_idempotent_witness :
    witnessServer.registry "wf-0" = some doneState ∧
    doneState.status.isTerminal = true ∧
    handleMessage witnessServer (.getResults "wf-0") =
      (witnessServer, [.workflowResults "wf-0" (serializeState doneState)]) :=
  ⟨by simp [witnessServer], rfl,
   (getResults_idempotent witnessServer "wf-0" doneState (by simp [witnessServer]) rfl).1⟩

/-- C6: a `get_workflow_results` request for an id the registry does not hold
yields exactly the error event `"unknown workflow"`, leaves the server state
unchanged with the connection still open, and the connection keeps processing
any further inbound commands exactly as it would have without the failed
request. -/
theorem unknown_workflow_keeps_connection (srv : ServerState) (wid : String)
    (h : srv.registry wid = none) (hopen : srv.connOpen = true) :
    handleMessage srv (.getResults wid) = (srv, [.errorMsg "unknown workflow"]) ∧
    ((handleMessage srv (.getResults wid)).1).connOpen = true ∧
    ∀ rest : List InMsg,
      processMessages srv (.getResults wid :: rest) =
        ((processMessages srv rest).1,
          .errorMsg "unknown workflow" :: (processMessages srv rest).2) := by
  have h1 : handleMessage srv (.getResults wid) = (srv, [.errorMsg "unknown workflow"]) := by
    simp [handleMessage, h]
  refine ⟨h1, by rw [h1]; exact hopen, ?_⟩
  intro rest
  simp [processMessages, hopen, h1]

/-- Witness for C6 at a concrete server and a never-issued id. -/
theorem unknown_workflow_keeps_connection_witness :
    witnessServer.registry "ghost" = none ∧
    witnessServer.connOpen = true ∧
    handleMessage witnessServer (.getResults "ghost") =
      (witnessServer, [.errorMsg "unknown workflow"]) :=
  ⟨by simp [witnessServer], rfl,
   (unknown_workflow_keeps_connection witnessServer "ghost" (by simp [witnessServer]) rfl).1⟩

/-- C7: every agent step — successful or fatally failed — emits exactly one
progress event, placed between the agent invocation and the next routing
decision in the step's trace; and any subscriber's observation of the
produced event sequence (from its join point on) is an order-preserving
subsequence of the produced sequence, so no two events are ever observed out
of production order, regardless of how many subscribers there are. -/
theorem step_emits_single_event_ordered (b : IterationBudget) (agents : AgentRoster)
    (s : WorkflowState) (hr : s.status = .RUNNING) (hc : s.cancel_requested = false) :
    (∃ st v, (coordinatorStepTrace b agents s).2 =
      [.agentStep s.active_agent, .progressEvent s.active_agent st,
       .routingDecision v]) ∧
    ∀ (produced : List OutMsg) (k : Nat), (observeFrom produced k).Sublist produced := by
  constructor
  · unfold coordinatorStepTrace
    rw [hr, hc]
    simp only [Status.isTerminal, Bool.false_eq_true, if_false, reduceCtorEq, reduceIte]
    cases hag : agents s.active_agent s with
    | ok s1 =>
      cases hv : routingNext b (afterAgent s s1) with
      | nextAgent a2 =>
        refine ⟨.RUNNING, .nextAgent a2, ?_⟩
        simp [hv, applyVerdict]
      | terminate st err =>
        refine ⟨.RUNNING, .terminate st err, ?_⟩
        simp [hv, applyVerdict]
    | fatal msg => exact ⟨.FAILED, .terminate .FAILED (some msg), rfl⟩
  · intro produced k
    exact List.drop_sublist k produced

/-- A running workflow state, used by concrete witnesses. -/
def runningState : WorkflowState :=
  { initialWorkflowState "t" with status := .RUNNING }

/-- Witness for C7 at a concrete running state under the scenario agents. -/
theorem step_emits_single_event_ordered_witness :
    runningState.status = .RUNNING ∧
    runningState.cancel_requested = false ∧
    ((∃ st v, (coordinatorStepTrace ⟨100, 2⟩ scenarioB_agents runningState).2 =
      [.agentStep runningState.active_agent,
       .progressEvent runningState.active_agent st,
       .routingDecision v]) ∧
    ∀ (produced : List OutMsg) (k : Nat), (observeFrom produced k).Sublist produced) :=
  ⟨rfl, rfl,
   step_emits_single_event_ordered ⟨100, 2⟩ scenarioB_agents runningState rfl rfl⟩

/-- C8: `checkConnection` is total over both request outcomes — on a response
it returns `true` exactly when the body's `status` field is the string
`"operational"` (any other value, missing field, or non-object body gives
`false`), and on any failed request the caught error yields `false`. -/
theorem checkConnection_total (data : JValue) (msg : String) :
    (checkConnection (.success data) = true ↔
      data.getField "status" = some (.jstr "operational")) ∧
    checkConnection (.failure msg) = false := by
  refine ⟨?_, rfl⟩
  unfold checkConnection
  cases h : data.getField "status" with
  | none => simp [h]
  | some v => cases v <;> simp [h]

/-- C9: with no user-set configuration, `getServerUrl` evaluates to
`http://localhost:3000` (reading `sochen.serverUrl`) and `startWebSocket`'s
URL evaluates to `ws://localhost:8765` (reading
`ai-agent-system.websocketHost`/`websocketPort`); and the manifest's only
declared setting, `agentSystem.serverUrl`, never affects either URL — setting
it to any value in any configuration changes neither. -/
theorem default_and_manifest_urls (u : UserConfig) (v : JValue) :
    getServerUrl emptyUserConfig = "http://localhost:3000" ∧
    websocketUrl emptyUserConfig = "ws://localhost:8765" ∧
    getServerUrl (overrideConfig u "agentSystem.serverUrl" v) = getServerUrl u ∧
    websocketUrl (overrideConfig u "agentSystem.serverUrl" v) = websocketUrl u := by
  have h1 : ("sochen" ++ "." ++ "serverUrl") ≠ "agentSystem.serverUrl" := by decide
  have h2 : ("ai-agent-system" ++ "." ++ "websocketHost") ≠ "agentSystem.serverUrl" := by decide
  have h3 : ("ai-agent-system" ++ "." ++ "websocketPort") ≠ "agentSystem.serverUrl" := by decide
  refine ⟨rfl, rfl, ?_, ?_⟩
  · simp [getServerUrl, configGet, overrideConfig, h1]
  · simp [websocketUrl, websocketHost, websocketPort, configGet, overrideConfig, h2, h3]

/-- C10: the extension performs socket operations only on an existing, open
socket — the task message is sent only by the `onopen` handler (no other
event's handler sends), and `deactivate` closes only a previously created
socket, so deactivating without ever starting a task performs no socket
operation. -/
theorem socket_safety :
    (∀ (task : String) (e : SocketEvent) (m : JValue),
      SocketOp.send m ∈ startWebSocketHandlers task e → e = .opened) ∧
    (∀ task : String, startWebSocketHandlers task .opened = [.send (taskMessage task)]) ∧
    deactivate none = [] ∧
    (∀ url : String, deactivate (some url) = [.close]) := by
  refine ⟨?_, fun _ => rfl, rfl, fun _ => rfl⟩
  intro task e m hm
  cases e with
  | opened => rfl
  | message d => simp [startWebSocketHandlers] at hm
  | closed => simp [startWebSocketHandlers] at hm
  | errored er => simp [startWebSocketHandlers] at hm

/-- Witness for C10: the concrete task message is among the open handler's
operations, and the send-only-when-open property holds there. -/
theorem socket_safety_witness :
    SocketOp.send (taskMessage "fix parse_int") ∈
      startWebSocketHandlers "fix parse_int" SocketEvent.opened ∧
    SocketEvent.opened = SocketEvent.opened :=
  ⟨by simp [startWebSocketHandlers],
   socket_safety.1 "fix parse_int" SocketEvent.opened (taskMessage "fix parse_int")
     (by simp [startWebSocketHandlers])⟩
